import Mathlib

/-!
Verification of the 168cap-infra FastAPI template (src/templates/main.py).

The service is a set of five HTTP handlers plus two error-response
handlers.  Each handler is a function of its request input, the process
environment (a read-only string-to-string mapping) and the current clock
value (the result of datetime.utcnow().isoformat(), modelled as an opaque
string passed in).  Responses are JSON objects, modelled as association
lists from string keys to string or boolean values.
-/

namespace CapInfra

/-- The process environment: an association list of variable names to
values, modelling os.environ. -/
abbrev Env := List (String × String)

/-- Embedding of os.getenv(key, dflt): the value of key when set,
otherwise the supplied default. -/
def getenv (env : Env) (key dflt : String) : String :=
  (env.lookup key).getD dflt

/-- Embedding of Python str.lower() restricted to the characters the
program compares (ASCII): lower-case every character. -/
def strLower (s : String) : String :=
  String.mk (s.data.map Char.toLower)

/-- Helper: does the second list begin with the first? -/
def listStartsWith : List Char → List Char → Bool
  | [], _ => true
  | _ :: _, [] => false
  | p :: ps, c :: cs => p == c && listStartsWith ps cs

/-- Helper: does the second list contain the first as a contiguous
sublist? -/
def listContainsSub (pat : List Char) : List Char → Bool
  | [] => pat.isEmpty
  | c :: cs => listStartsWith pat (c :: cs) || listContainsSub pat cs

/-- Does the string s contain pat as a substring? -/
def strContains (s pat : String) : Bool :=
  listContainsSub pat.data s.data

/-- A JSON leaf value appearing in the responses of main.py: every
response field is a string or a boolean. -/
inductive JVal where
  | str (s : String)
  | bool (b : Bool)
deriving DecidableEq, Repr

/-- A JSON object: an association list of keys to values, in the order
the source constructs the Python dict literal. -/
abbrev JObj := List (String × JVal)

/-- An HTTP response: a status code and a JSON body. -/
structure Response where
  status : Nat
  body : JObj
deriving DecidableEq, Repr

/-- Handler of GET /, main.py lines 30-38: the root endpoint.  The dict
literal returned by the source, with the timestamp read passed in as
now. -/
def root (env : Env) (now : String) : JObj :=
  [("message", JVal.str "Welcome to your 168cap LLM App!"),
   ("app_name", JVal.str (getenv env "APP_NAME" "Unknown")),
   ("timestamp", JVal.str now),
   ("status", JVal.str "running")]

/-- Handler of GET /health, main.py lines 40-48: the health check
endpoint. -/
def health_check (env : Env) (now : String) : JObj :=
  [("status", JVal.str "healthy"),
   ("timestamp", JVal.str now),
   ("app_name", JVal.str (getenv env "APP_NAME" "Unknown")),
   ("environment", JVal.str (getenv env "ENVIRONMENT" "development"))]

/-- Handler of GET /api/info, main.py lines 50-59: the application
information endpoint.  The debug field embeds
os.getenv("DEBUG", "false").lower() == "true". -/
def app_info (env : Env) (now : String) : JObj :=
  [("app_name", JVal.str (getenv env "APP_NAME" "Unknown")),
   ("version", JVal.str "1.0.0"),
   ("environment", JVal.str (getenv env "ENVIRONMENT" "development")),
   ("debug", JVal.bool (strLower (getenv env "DEBUG" "false") == "true")),
   ("timestamp", JVal.str now)]

/-- Outcome of the chat handler: a successful dict return, or a raised
HTTPException carrying a status code and a detail string. -/
inductive ChatResult where
  | ok (body : JObj)
  | httpError (status : Nat) (detail : String)
deriving DecidableEq, Repr

/-- Step of the chat body: the f-string interpolation of the message into
"Echo: ...".  Interpolating a str value into an f-string never raises in
Python, so the embedding always returns Except.ok. -/
def formatEcho (message : String) : Except String String :=
  Except.ok ("Echo: " ++ message)

/-- Step of the chat body: datetime.utcnow().isoformat().  Reading and
formatting the clock never raises, so the embedding always returns
Except.ok of the clock value passed in. -/
def utcnowIso (now : String) : Except String String :=
  Except.ok now

/-- Step of the chat body: os.getenv with a default.  A dictionary read
with a default never raises, so the embedding always returns Except.ok. -/
def getenvStep (env : Env) (key dflt : String) : Except String String :=
  Except.ok (getenv env key dflt)

/-- The try-block body of the chat handler, main.py lines 68-75: the
three steps in source order, assembling the success dict.  An
Except.error e would model one of the steps raising an exception whose
str is e. -/
def chat_body (message : String) (env : Env) (now : String) :
    Except String JObj := do
  let response ← formatEcho message
  let timestamp ← utcnowIso now
  let model ← getenvStep env "MODEL_NAME" "unknown"
  return [("response", JVal.str response),
          ("timestamp", JVal.str timestamp),
          ("model", JVal.str model)]

/-- The except branch of the chat handler, main.py lines 76-77: raise
HTTPException(status_code=500, detail=f"Chat processing failed: {e}"),
where e is the str of the caught exception. -/
def chat_except_branch (e : String) : ChatResult :=
  ChatResult.httpError 500 ("Chat processing failed: " ++ e)

/-- Handler of POST /api/chat, main.py lines 62-77: run the try-block
body; on success return its dict, on a raised exception with text e run
the except branch. -/
def chat_endpoint (message : String) (env : Env) (now : String) :
    ChatResult :=
  match chat_body message env now with
  | Except.ok body => ChatResult.ok body
  | Except.error e => chat_except_branch e

/-- The chat handler with an explicitly injected fault: fault = some e
models a step of the try-block body raising an exception whose str is e
(the situation the except branch of main.py lines 76-77 is written for);
fault = none is the actual fault-free execution. -/
def chat_endpoint_faulty (message : String) (env : Env) (now : String)
    (fault : Option String) : ChatResult :=
  match fault with
  | none => chat_endpoint message env now
  | some e => chat_except_branch e

/-- Custom 404 handler, main.py lines 79-89.  The request and exc
parameters of the source are ignored by its body. -/
def not_found_handler (_request _exc : String) (env : Env) (now : String) :
    Response :=
  ⟨404,
   [("error", JVal.str "Endpoint not found"),
    ("timestamp", JVal.str now),
    ("app_name", JVal.str (getenv env "APP_NAME" "Unknown"))]⟩

/-- Custom 500 handler, main.py lines 91-101.  The request and exc
parameters of the source are ignored by its body. -/
def internal_error_handler (_request _exc : String) (env : Env)
    (now : String) : Response :=
  ⟨500,
   [("error", JVal.str "Internal server error"),
    ("timestamp", JVal.str now),
    ("app_name", JVal.str (getenv env "APP_NAME" "Unknown"))]⟩

/-- The paths for which main.py registers a route. -/
def definedPaths : List String := ["/", "/health", "/api/info", "/api/chat"]

/-- Routing of one request to its handler, per the route decorators of
main.py: exact (method, path) match dispatches to the matching handler
and wraps a successful dict return with status 200 (the FastAPI
default); a raised HTTPException becomes its status with a detail body;
a known path with the wrong method is answered 405 by the framework; any
other path is answered by the registered 404 handler. -/
def dispatch (method path message : String) (env : Env) (now : String) :
    Response :=
  if method = "GET" ∧ path = "/" then ⟨200, root env now⟩
  else if method = "GET" ∧ path = "/health" then ⟨200, health_check env now⟩
  else if method = "GET" ∧ path = "/api/info" then ⟨200, app_info env now⟩
  else if method = "POST" ∧ path = "/api/chat" then
    match chat_endpoint message env now with
    | ChatResult.ok body => ⟨200, body⟩
    | ChatResult.httpError s d => ⟨s, [("detail", JVal.str d)]⟩
  else if path ∈ definedPaths then
    ⟨405, [("detail", JVal.str "Method Not Allowed")]⟩
  else not_found_handler path "Not Found" env now

/-- One served request at the framework boundary: an unhandled fault
(fault = some e, where e is the str of the fault) is answered by the
registered 500 handler of main.py lines 91-101; otherwise the request is
routed normally. -/
def serve (method path message : String) (env : Env) (now : String)
    (fault : Option String) : Response :=
  match fault with
  | some e => internal_error_handler path e env now
  | none => dispatch method path message env now

/-- The service with explicit process state.  The state is an arbitrary
log of previously returned bodies, standing for any module-level mutable
state a handler could have read or written; no handler of main.py reads
or writes any such state, so a request leaves it unchanged and the
response does not depend on it. -/
def handle_stateful (st : List JObj) (method path message : String)
    (env : Env) (now : String) : List JObj × Response :=
  (st, dispatch method path message env now)

/-! Helper lemmas about substring containment, used for the amended
claim about the chat error message. -/

/-- A list starts with itself followed by anything. -/
theorem listStartsWith_append (l r : List Char) :
    listStartsWith l (l ++ r) = true := by
  induction l with
  | nil => rfl
  | cons c cs ih => simp [listStartsWith, ih]

/-- A list starts with itself. -/
theorem listStartsWith_self (l : List Char) : listStartsWith l l = true := by
  simpa using listStartsWith_append l []

/-- A list contains as a sublist anything it ends with. -/
theorem listContainsSub_end (a pat : List Char) :
    listContainsSub pat (a ++ pat) = true := by
  induction a with
  | nil =>
    cases pat with
    | nil => rfl
    | cons c cs =>
      show listContainsSub (c :: cs) (c :: cs) = true
      simp [listContainsSub, listStartsWith_self]
  | cons x a ih =>
    simp [listContainsSub, ih]

/-- A concatenation contains its second part as a substring. -/
theorem strContains_append (a e : String) : strContains (a ++ e) e = true := by
  cases a with
  | mk da =>
    cases e with
    | mk de =>
      show listContainsSub de (da ++ de) = true
      exact listContainsSub_end da de

/-- Value of the debug field of the info endpoint, directly from the
source expression. -/
theorem app_info_debug_val (env : Env) (now : String) :
    (app_info env now).lookup "debug" =
      some (JVal.bool (strLower (getenv env "DEBUG" "false") == "true")) := rfl

/-! The claims. -/

/-- Claim C1: whenever the POST /api/chat handler succeeds with some
body, the response field of that body equals "Echo: " concatenated with
the input message, the model field equals the MODEL_NAME environment
value (default "unknown"), and a timestamp field is present; the witness
instantiates this at message "hi", where the response field is
"Echo: hi". -/
theorem chat_success_fields (message : String) (env : Env) (now : String)
    (body : JObj) (h : chat_endpoint message env now = ChatResult.ok body) :
    body.lookup "response" = some (JVal.str ("Echo: " ++ message)) ∧
    body.lookup "model" = some (JVal.str (getenv env "MODEL_NAME" "unknown")) ∧
    (body.lookup "timestamp").isSome = true := by
  have h0 : chat_endpoint message env now =
      ChatResult.ok [("response", JVal.str ("Echo: " ++ message)),
                     ("timestamp", JVal.str now),
                     ("model", JVal.str (getenv env "MODEL_NAME" "unknown"))] := rfl
  rw [h0] at h
  have hb := (ChatResult.ok.inj h).symm
  subst hb
  exact ⟨rfl, rfl, rfl⟩

/-- Witness for claim C1 at message "hi", an empty environment and clock
value "t". -/
theorem chat_success_fields_witness :
    (([("response", JVal.str "Echo: hi"), ("timestamp", JVal.str "t"),
       ("model", JVal.str "unknown")] : JObj).lookup "response" =
        some (JVal.str ("Echo: " ++ "hi")) ∧
     ([("response", JVal.str "Echo: hi"), ("timestamp", JVal.str "t"),
       ("model", JVal.str "unknown")] : JObj).lookup "model" =
        some (JVal.str (getenv [] "MODEL_NAME" "unknown")) ∧
     (([("response", JVal.str "Echo: hi"), ("timestamp", JVal.str "t"),
        ("model", JVal.str "unknown")] : JObj).lookup "timestamp").isSome
       = true) :=
  chat_success_fields "hi" [] "t"
    [("response", JVal.str "Echo: hi"), ("timestamp", JVal.str "t"),
     ("model", JVal.str "unknown")] rfl

/-- Claim C2 is false as stated: when a step of the chat body raises an
exception whose str is "boom" while the input message is "hi", the
handler reports status 500 but the error message
"Chat processing failed: boom" does not contain the raw input message
"hi". -/
theorem chat_error_detail_lacks_message :
    chat_endpoint_faulty "hi" [] "t" (some "boom") =
      ChatResult.httpError 500 "Chat processing failed: boom" ∧
    strContains "Chat processing failed: boom" "hi" = false :=
  ⟨rfl, by decide⟩

/-- Claim C2 amended: if any step of the chat body raises an exception
whose str is e, the handler reports HTTP status 500 and its error
message embeds the text e of the triggering exception (not, in general,
the raw input message). -/
theorem chat_error_embeds_exception_text (message : String) (env : Env)
    (now e : String) :
    chat_endpoint_faulty message env now (some e) =
      ChatResult.httpError 500 ("Chat processing failed: " ++ e) ∧
    strContains ("Chat processing failed: " ++ e) e = true :=
  ⟨rfl, strContains_append "Chat processing failed: " e⟩

/-- Claim C3: for every input message, environment and clock value, the
body of the chat handler (an f-string interpolation, a timestamp read
and an environment read, each of which is total) never raises: the
handler always returns the success mapping, so its HTTP 500 exception
branch is unreachable. -/
theorem chat_body_never_raises (message : String) (env : Env)
    (now : String) :
    chat_endpoint message env now =
      ChatResult.ok [("response", JVal.str ("Echo: " ++ message)),
                     ("timestamp", JVal.str now),
                     ("model", JVal.str (getenv env "MODEL_NAME" "unknown"))] :=
  rfl

/-- Claim C4: for every supported route and every environment, the
response has status 200 and its body contains every key of the table in
section 4.1 for that route, including the constant values
status="running", status="healthy" and version="1.0.0". -/
theorem all_routes_status_200_and_keys (env : Env) (now message : String) :
    ((dispatch "GET" "/" message env now).status = 200 ∧
     ((dispatch "GET" "/" message env now).body.lookup "message").isSome
       = true ∧
     ((dispatch "GET" "/" message env now).body.lookup "app_name").isSome
       = true ∧
     ((dispatch "GET" "/" message env now).body.lookup "timestamp").isSome
       = true ∧
     (dispatch "GET" "/" message env now).body.lookup "status" =
       some (JVal.str "running")) ∧
    ((dispatch "GET" "/health" message env now).status = 200 ∧
     (dispatch "GET" "/health" message env now).body.lookup "status" =
       some (JVal.str "healthy") ∧
     ((dispatch "GET" "/health" message env now).body.lookup
        "timestamp").isSome = true ∧
     ((dispatch "GET" "/health" message env now).body.lookup
        "app_name").isSome = true ∧
     ((dispatch "GET" "/health" message env now).body.lookup
        "environment").isSome = true) ∧
    ((dispatch "GET" "/api/info" message env now).status = 200 ∧
     ((dispatch "GET" "/api/info" message env now).body.lookup
        "app_name").isSome = true ∧
     (dispatch "GET" "/api/info" message env now).body.lookup "version" =
       some (JVal.str "1.0.0") ∧
     ((dispatch "GET" "/api/info" message env now).body.lookup
        "environment").isSome = true ∧
     ((dispatch "GET" "/api/info" message env now).body.lookup
        "debug").isSome = true ∧
     ((dispatch "GET" "/api/info" message env now).body.lookup
        "timestamp").isSome = true) ∧
    ((dispatch "POST" "/api/chat" message env now).status = 200 ∧
     ((dispatch "POST" "/api/chat" message env now).body.lookup
        "response").isSome = true ∧
     ((dispatch "POST" "/api/chat" message env now).body.lookup
        "timestamp").isSome = true ∧
     ((dispatch "POST" "/api/chat" message env now).body.lookup
        "model").isSome = true) :=
  ⟨⟨rfl, rfl, rfl, rfl, rfl⟩, ⟨rfl, rfl, rfl, rfl, rfl⟩,
   ⟨rfl, rfl, rfl, rfl, rfl, rfl⟩, ⟨rfl, rfl, rfl, rfl⟩⟩

/-- Claim C5: the debug field of GET /api/info is the boolean true if
and only if the DEBUG environment value (default "false" when unset)
compares equal to "true" case-insensitively; with DEBUG=TRUE it is true
and with DEBUG unset it is false. -/
theorem app_info_debug_iff_true (env : Env) (now : String) :
    (((app_info env now).lookup "debug" = some (JVal.bool true)) ↔
      strLower (getenv env "DEBUG" "false") = "true") ∧
    (app_info [("DEBUG", "TRUE")] now).lookup "debug" =
      some (JVal.bool true) ∧
    (app_info [] now).lookup "debug" = some (JVal.bool false) := by
  refine ⟨?_, rfl, rfl⟩
  rw [app_info_debug_val]
  constructor
  · intro h
    exact eq_of_beq (JVal.bool.inj (Option.some.inj h))
  · intro h
    rw [h]
    rfl

/-- Witness for claim C5: applying the equivalence at the concrete
environment DEBUG=tRuE. -/
theorem app_info_debug_iff_true_witness :
    strLower (getenv [("DEBUG", "tRuE")] "DEBUG" "false") = "true" :=
  (app_info_debug_iff_true [("DEBUG", "tRuE")] "t").1.mp rfl

/-- Claim C6: with no environment variables set, GET / returns a mapping
whose app_name field equals "Unknown", the per-handler default for
APP_NAME. -/
theorem root_default_app_name (now : String) :
    (root [] now).lookup "app_name" = some (JVal.str "Unknown") := rfl

/-- Claim C7: the environment field of GET /health equals the
ENVIRONMENT environment variable when it is set and equals "development"
when it is unset. -/
theorem health_environment_field (env : Env) (now : String) :
    (∀ v, env.lookup "ENVIRONMENT" = some v →
      (health_check env now).lookup "environment" = some (JVal.str v)) ∧
    (env.lookup "ENVIRONMENT" = none →
      (health_check env now).lookup "environment" =
        some (JVal.str "development")) := by
  constructor
  · intro v hv
    show some (JVal.str (getenv env "ENVIRONMENT" "development")) =
      some (JVal.str v)
    rw [getenv, hv]
    rfl
  · intro hn
    show some (JVal.str (getenv env "ENVIRONMENT" "development")) =
      some (JVal.str "development")
    rw [getenv, hn]
    rfl

/-- Witness for claim C7 at ENVIRONMENT=production and at the empty
environment. -/
theorem health_environment_field_witness :
    (health_check [("ENVIRONMENT", "production")] "t").lookup
      "environment" = some (JVal.str "production") ∧
    (health_check [] "t").lookup "environment" =
      some (JVal.str "development") :=
  ⟨(health_environment_field [("ENVIRONMENT", "production")] "t").1
     "production" rfl,
   (health_environment_field [] "t").2 rfl⟩

/-- Claim C8: every request whose path matches no defined route is
answered with HTTP status 404 and the fixed envelope of the registered
404 handler: error="Endpoint not found", the timestamp, and app_name
(APP_NAME or "Unknown"). -/
theorem unmatched_path_404 (method path message : String) (env : Env)
    (now : String) (h : path ∉ definedPaths) :
    dispatch method path message env now =
      ⟨404, [("error", JVal.str "Endpoint not found"),
             ("timestamp", JVal.str now),
             ("app_name", JVal.str (getenv env "APP_NAME" "Unknown"))]⟩ := by
  have h' := h
  simp only [definedPaths, List.mem_cons, List.not_mem_nil, or_false,
    not_or] at h'
  obtain ⟨h1, h2, h3, h4⟩ := h'
  rw [dispatch, if_neg (fun hc => h1 hc.2), if_neg (fun hc => h2 hc.2),
    if_neg (fun hc => h3 hc.2), if_neg (fun hc => h4 hc.2), if_neg h]
  rfl

/-- Witness for claim C8 at GET /does-not-exist. -/
theorem unmatched_path_404_witness :
    dispatch "GET" "/does-not-exist" "" [] "t" =
      ⟨404, [("error", JVal.str "Endpoint not found"),
             ("timestamp", JVal.str "t"),
             ("app_name", JVal.str "Unknown")]⟩ :=
  unmatched_path_404 "GET" "/does-not-exist" "" [] "t" (by decide)

/-- Claim C9: every unhandled fault during handler execution is answered
with HTTP status 500 and the fixed envelope of the registered 500
handler: error="Internal server error", the timestamp, and app_name
(APP_NAME or "Unknown"). -/
theorem unhandled_fault_500 (method path message : String) (env : Env)
    (now e : String) :
    serve method path message env now (some e) =
      ⟨500, [("error", JVal.str "Internal server error"),
             ("timestamp", JVal.str now),
             ("app_name", JVal.str (getenv env "APP_NAME" "Unknown"))]⟩ :=
  rfl

/-- Claim C10: every handler is a pure function of its own input, the
read-only environment and the clock value: for any two process states,
the same request with the same environment and clock yields the
identical response, and serving a request leaves the process state
unchanged. -/
theorem handlers_pure (st₁ st₂ : List JObj) (method path message : String)
    (env : Env) (now : String) :
    (handle_stateful st₁ method path message env now).2 =
      (handle_stateful st₂ method path message env now).2 ∧
    (handle_stateful st₁ method path message env now).1 = st₁ :=
  ⟨rfl, rfl⟩

end CapInfra
